import Mathlib

/-!
Verification of the LogLens log-ingestion pipeline (severity table, record
model, normalizer, filter engine, engine facade, journalctl source) against
its natural-language specification.

The Python code is shallowly embedded: JSON values parsed by `json.loads`
become the inductive `Json` (floats are not modelled; no claim depends on
them), Python dictionaries become association lists, mutable global counters
become explicitly threaded state records, wall-clock time and the standard
library's datetime parsing/formatting become an abstract `TimeOracle`
parameter, and raised exceptions become `Except` results.
-/

namespace LogLens

/-- A JSON value as produced by `json.loads` (and Python scalars flowing
through the pipeline).  `null` corresponds to Python `None`. -/
inductive Json where
  | null : Json
  | bool : Bool → Json
  | int : Int → Json
  | str : String → Json
  | arr : List Json → Json
  | obj : List (String × Json) → Json
deriving Repr, BEq

/-- Python truthiness (`bool(x)`) for the modelled values: `None` and `False`
are falsy, numbers are truthy iff non-zero, strings/containers iff
non-empty. -/
def truthy : Json → Bool
  | .null => false
  | .bool b => b
  | .int n => n ≠ 0
  | .str s => s ≠ ""
  | .arr xs => !xs.isEmpty
  | .obj kvs => !kvs.isEmpty

mutual

/-- Python `str(x)` on the modelled values.  Scalars follow CPython exactly;
for containers the rendering is an approximation of `repr` (string quoting
is not reproduced) — no claim observes the string form of a container. -/
def pyStr : Json → String
  | .null => "None"
  | .bool b => if b then "True" else "False"
  | .int n => toString n
  | .str s => s
  | .arr xs => "[" ++ pyStrList xs ++ "]"
  | .obj kvs => "\x7b" ++ pyStrObj kvs ++ "\x7d"

def pyStrList : List Json → String
  | [] => ""
  | [x] => pyStr x
  | x :: y :: rest => pyStr x ++ ", " ++ pyStrList (y :: rest)

def pyStrObj : List (String × Json) → String
  | [] => ""
  | [(k, v)] => k ++ ": " ++ pyStr v
  | (k, v) :: e :: rest => k ++ ": " ++ pyStr v ++ ", " ++ pyStrObj (e :: rest)

end

/-- Python `s.lower()` (ASCII case folding; non-ASCII case mappings are not
modelled — no repository string needs them). -/
def pyLower (s : String) : String :=
  ⟨s.data.map Char.toLower⟩

/-- Python `s.strip()`: whitespace removed from both ends. -/
def pyStrip (s : String) : String :=
  ⟨((s.data.dropWhile Char.isWhitespace).reverse.dropWhile
      Char.isWhitespace).reverse⟩

/-- Parse an integer literal the way Python `int(s)` does: surrounding
whitespace stripped, optional sign, then a non-empty run of digits.
(Underscore digit separators and non-ASCII digits are not modelled.) -/
def parseIntStr (s : String) : Option Int :=
  let (sign, digits) :=
    match (pyStrip s).data with
    | '-' :: rest => ((-1 : Int), rest)
    | '+' :: rest => ((1 : Int), rest)
    | cs => ((1 : Int), cs)
  if digits ≠ [] ∧ digits.all Char.isDigit then
    some (sign * (digits.foldl (fun acc c => acc * 10 + (c.toNat - 48)) 0 : Nat))
  else
    none

/-- Python `int(x)` on a modelled value: ints are themselves, `bool` is a
subclass of `int` (`True` = 1), numeric strings are parsed, everything else
raises (`none`). -/
def pyInt : Json → Option Int
  | .int n => some n
  | .bool b => some (if b then 1 else 0)
  | .str s => parseIntStr s
  | _ => none

/-- Python `d.get(k)` on a JSON object: `none` models the Python `None`
result, which arises both when the key is absent and when it is bound to
JSON `null` (Python `None`). -/
def pyGet (kvs : List (String × Json)) (k : String) : Option Json :=
  match kvs.lookup k with
  | some .null => none
  | r => r

/-- Python `d.get(k, default)`: the bound value (including `null`) if the key
is present, the default otherwise. -/
def pyGetD (kvs : List (String × Json)) (k : String) (d : Json) : Json :=
  match kvs.lookup k with
  | some v => v
  | none => d

/-- Python `a or b` over possibly-`None` values: `a` if it is truthy,
otherwise `b` (even when `b` is falsy). -/
def pyOr (a b : Option Json) : Option Json :=
  match a with
  | some v => if truthy v then some v else b
  | none => b

/-- Python `a or b` where `b` is a plain (non-`None`) default. -/
def pyOrJ (a : Option Json) (b : Json) : Json :=
  match a with
  | some v => if truthy v then v else b
  | none => b

/-- Python `pat in s` substring test. -/
def containsSub (s pat : String) : Bool :=
  decide (pat.data <:+: s.data)

/-! ## Severity table (`loglens/severity.py`) -/

/-- `priority_to_label`: the `PRIORITY_LABELS` lookup; out-of-range
priorities raise `ValueError` (modelled as `Except.error`). -/
def priority_to_label (priority : Int) : Except String String :=
  if priority = 0 then .ok "EMERG"
  else if priority = 1 then .ok "ALERT"
  else if priority = 2 then .ok "CRIT"
  else if priority = 3 then .ok "ERROR"
  else if priority = 4 then .ok "WARNING"
  else if priority = 5 then .ok "NOTICE"
  else if priority = 6 then .ok "INFO"
  else if priority = 7 then .ok "DEBUG"
  else .error ("Invalid priority: " ++ toString priority ++ ". Must be 0-7.")

/-- Python `s.isdigit()` restricted to ASCII: non-empty and all digits. -/
def strIsdigit (s : String) : Bool :=
  !s.data.isEmpty && s.data.all Char.isDigit

/-- Digit-string to number, for the `label.isdigit()` branch of
`label_to_priority` (the string is known to be all digits). -/
def digitsToInt (s : String) : Int :=
  (s.data.foldl (fun acc c => acc * 10 + (c.toNat - 48)) 0 : Nat)

/-- The `LABEL_PRIORITIES` mapping: lower-cased canonical labels plus the
alias set (`err`, `warn`, `critical`, `emergency`). -/
def labelPriorityOfStr (s : String) : Option Int :=
  if s = "emerg" then some 0
  else if s = "alert" then some 1
  else if s = "crit" then some 2
  else if s = "error" then some 3
  else if s = "warning" then some 4
  else if s = "notice" then some 5
  else if s = "info" then some 6
  else if s = "debug" then some 7
  else if s = "err" then some 3
  else if s = "warn" then some 4
  else if s = "critical" then some 2
  else if s = "emergency" then some 0
  else none

/-- A `Union[str, int]` severity argument. -/
inductive SevInput where
  | int : Int → SevInput
  | str : String → SevInput
deriving Repr, BEq

/-- `label_to_priority`: integers are range-checked, digit strings parsed and
range-checked, other strings lower-cased and looked up in
`LABEL_PRIORITIES`; failures raise `ValueError`. -/
def label_to_priority : SevInput → Except String Int
  | .int n =>
    if 0 ≤ n ∧ n ≤ 7 then .ok n
    else .error ("Invalid priority number: " ++ toString n ++ ". Must be 0-7.")
  | .str label =>
    if strIsdigit label then
      let priority := digitsToInt label
      if 0 ≤ priority ∧ priority ≤ 7 then .ok priority
      else .error ("Invalid priority number: " ++ label ++ ". Must be 0-7.")
    else
      match labelPriorityOfStr (pyLower label) with
      | some n => .ok n
      | none => .error ("Unknown severity label: " ++ label)

/-- `is_at_least_severity`: resolve the threshold and compare (lower numbers
are more severe). -/
def is_at_least_severity (priority : Int) (min_severity : SevInput) :
    Except String Bool :=
  (label_to_priority min_severity).map fun threshold => priority ≤ threshold

/-! ## Record model (`loglens/model.py`) -/

/-- A normalized log record (`LogRecord` dataclass). -/
structure LogRecord where
  timestamp : String
  severity_num : Int
  severity_label : String
  message : String
  raw : Option (List (String × Json)) := none
deriving Repr, BEq

/-- `LogRecord` construction including the `__post_init__` validation:
`severity_num` outside 0..7 raises `ValueError`. -/
def mkLogRecord (timestamp : String) (severity_num : Int)
    (severity_label message : String) (raw : Option (List (String × Json))) :
    Except String LogRecord :=
  if 0 ≤ severity_num ∧ severity_num ≤ 7 then
    .ok ⟨timestamp, severity_num, severity_label, message, raw⟩
  else
    .error ("severity_num must be 0-7, got " ++ toString severity_num)

/-- A raw event from a source before normalization (`RawEvent` dataclass).
`data` is a dict for JSON sources and a string for text sources; both are
carried by `Json`. -/
structure RawEvent where
  data : Json
  source_type : String
  metadata : Option (List (String × Json)) := none
deriving Repr, BEq

/-! ## Normalizer (`loglens/normalize.py`) -/

/-- The process-wide `_normalization_stats` counter set, threaded
explicitly. -/
structure NormStats where
  total : Nat := 0
  missing_priority : Nat := 0
  invalid_priority : Nat := 0
  missing_timestamp : Nat := 0
  missing_message : Nat := 0
deriving Repr, BEq

/-- The environment-dependent pieces of normalization, abstracted: the
current wall-clock time already ISO-formatted (`datetime.now().isoformat()`)
and the three datetime conversions used by the normalizers, each returning
`none` where the Python call raises.  Every theorem below holds for every
oracle. -/
structure TimeOracle where
  /-- `datetime.now().isoformat()` at normalization time. -/
  now : String
  /-- `datetime.fromtimestamp(us / 1_000_000).isoformat()` for a
  microseconds-since-epoch value. -/
  fromMicros : Int → Option String
  /-- `datetime.fromisoformat(s).isoformat()`. -/
  fromIso : String → Option String
  /-- `datetime.fromtimestamp(float(x)).isoformat()` for a raw JSON value. -/
  fromUnix : Json → Option String

/-- `_extract_journald_timestamp`: prefer `_SOURCE_REALTIME_TIMESTAMP`, then
`__REALTIME_TIMESTAMP` (presence tests, not truthiness); on absence or any
conversion failure fall back to the current time and count a missing
timestamp. -/
def extractJournaldTimestamp (o : TimeOracle) (data : List (String × Json))
    (stats : NormStats) : String × NormStats :=
  let tsField :=
    match pyGet data "_SOURCE_REALTIME_TIMESTAMP" with
    | none => pyGet data "__REALTIME_TIMESTAMP"
    | r => r
  let fallback := (o.now, { stats with missing_timestamp := stats.missing_timestamp + 1 })
  match tsField with
  | some v =>
    match pyInt v with
    | some us =>
      match o.fromMicros us with
      | some s => (s, stats)
      | none => fallback
    | none => fallback
  | none => fallback

/-- The `PRIORITY` resolution of `_normalize_journalctl`: absent (or `null`)
counts as missing and defaults to 6; non-numeric or out-of-range counts as
invalid and defaults to 6; a valid 0–7 value is used as-is. -/
def journalPriority (data : List (String × Json)) (stats : NormStats) :
    Int × NormStats :=
  match pyGet data "PRIORITY" with
  | none => (6, { stats with missing_priority := stats.missing_priority + 1 })
  | some pf =>
    match pyInt pf with
    | none => (6, { stats with invalid_priority := stats.invalid_priority + 1 })
    | some n =>
      if 0 ≤ n ∧ n ≤ 7 then (n, stats)
      else (6, { stats with invalid_priority := stats.invalid_priority + 1 })

/-- `_normalize_journalctl`: requires dict data; message from `MESSAGE`
(empty counts as missing but still succeeds), priority as above, label from
the severity table, timestamp from the journald fields, `raw` = the full
original mapping. -/
def normalizeJournalctl (o : TimeOracle) (event : RawEvent)
    (stats : NormStats) : Except String LogRecord × NormStats :=
  match event.data with
  | .obj data =>
    let message0 := pyGetD data "MESSAGE" (.str "")
    let stats1 :=
      if truthy message0 then stats
      else { stats with missing_message := stats.missing_message + 1 }
    let message := match message0 with | .str s => s | v => pyStr v
    let pr := journalPriority data stats1
    match priority_to_label pr.1 with
    | .error e => (.error e, pr.2)
    | .ok severity_label =>
      let ts := extractJournaldTimestamp o data pr.2
      (mkLogRecord ts.1 pr.1 severity_label message (some data), ts.2)
  | _ => (.error "Journalctl event data must be a dict", stats)

/-- The `level_map` label table of `_normalize_file_jsonl`, with its
`.get(key, 6)` default. -/
def jsonlLevelOfStr (s : String) : Int :=
  if s = "debug" then 7
  else if s = "info" then 6
  else if s = "notice" then 5
  else if s = "warn" then 4
  else if s = "warning" then 4
  else if s = "error" then 3
  else if s = "err" then 3
  else if s = "crit" then 2
  else if s = "critical" then 2
  else if s = "alert" then 1
  else if s = "emerg" then 0
  else 6

/-- The numeric part of `_normalize_file_jsonl`'s severity resolution for a
present `level`/`severity` value: an `int` (including `bool`, a subclass of
`int` in Python, valued 0/1) in 0..7 is used directly, out-of-range defaults
to 6; a string is lower-cased and sent through `level_map` with default 6;
any other type leaves the default 6. -/
def jsonlLevelNum : Json → Int
  | .int n => if 0 ≤ n ∧ n ≤ 7 then n else 6
  | .bool b => let n : Int := if b then 1 else 0; if 0 ≤ n ∧ n ≤ 7 then n else 6
  | .str s => jsonlLevelOfStr (pyLower s)
  | _ => 6

/-- The severity resolution of `_normalize_file_jsonl`: the first truthy of
`level`/`severity` (Python `or`); defaults `(6, "INFO")` when neither is
present.  The label is recomputed from the table inside the same `try`
block as the number, so a table failure would leave the initial `"INFO"`
label in place while keeping the assigned number. -/
def jsonlSeverity (data : List (String × Json)) : Int × String :=
  match pyOr (pyGet data "level") (pyGet data "severity") with
  | none => (6, "INFO")
  | some v =>
    match priority_to_label (jsonlLevelNum v) with
    | .ok l => (jsonlLevelNum v, l)
    | .error _ => (jsonlLevelNum v, "INFO")

/-- The timestamp resolution of `_normalize_file_jsonl`: first truthy of
`timestamp`/`time`/`@timestamp`; tried as ISO-8601 (with `Z` rewritten to
`+00:00`), then as a Unix timestamp, falling back to the current time. -/
def jsonlTimestamp (o : TimeOracle) (data : List (String × Json)) : String :=
  match pyOr (pyOr (pyGet data "timestamp") (pyGet data "time"))
      (pyGet data "@timestamp") with
  | some v =>
    if truthy v then
      match o.fromIso ((pyStr v).replace "Z" "+00:00") with
      | some s => s
      | none =>
        match o.fromUnix v with
        | some s => s
        | none => o.now
    else o.now
  | none => o.now

/-- `_normalize_file_jsonl`: requires dict data; message from the first
truthy of `message`/`msg`/`log` (default empty), severity and timestamp as
above, `raw` = the original mapping. -/
def normalizeFileJsonl (o : TimeOracle) (event : RawEvent)
    (stats : NormStats) : Except String LogRecord × NormStats :=
  match event.data with
  | .obj data =>
    let message0 :=
      pyOrJ (pyOr (pyOr (pyGet data "message") (pyGet data "msg"))
        (pyGet data "log")) (.str "")
    let message := match message0 with | .str s => s | v => pyStr v
    (mkLogRecord (jsonlTimestamp o data) (jsonlSeverity data).1
      (jsonlSeverity data).2 message (some data), stats)
  | _ => (.error "JSONL event data must be a dict", stats)

/-- `_normalize_file_text`: requires string data; the whole line is the
message, severity is always INFO (6), timestamp the current time, and `raw`
is synthesized as `{"line": message}`. -/
def normalizeFileText (o : TimeOracle) (event : RawEvent)
    (stats : NormStats) : Except String LogRecord × NormStats :=
  match event.data with
  | .str line =>
    (mkLogRecord o.now 6 "INFO" line (some [("line", .str line)]), stats)
  | _ => (.error "Text file event data must be a string", stats)

/-- `normalize_event`: bump the global total, then dispatch on
`source_type`; unknown types raise `NormalizationError`. -/
def normalize_event (o : TimeOracle) (event : RawEvent) (stats : NormStats) :
    Except String LogRecord × NormStats :=
  let stats := { stats with total := stats.total + 1 }
  if event.source_type = "journalctl" then normalizeJournalctl o event stats
  else if event.source_type = "file_jsonl" then normalizeFileJsonl o event stats
  else if event.source_type = "file_text" then normalizeFileText o event stats
  else (.error ("Unknown source type: " ++ event.source_type), stats)

/-! ## Filter engine (`loglens/filtering.py`) -/

/-- The keyword check applied last in the `filter_logs` loop: substring
match on the message, case-folded unless `case_sensitive`. -/
def passKeyword (keyword : Option String) (case_sensitive : Bool)
    (r : LogRecord) : Bool :=
  match keyword with
  | none => true
  | some k =>
    if case_sensitive then containsSub r.message k
    else containsSub (pyLower r.message) (pyLower k)

/-- The minimum-severity check of the `filter_logs` loop:
`is_at_least_severity(record.severity_num, min_priority)` (which re-resolves
the already-numeric threshold and so can itself raise), then the keyword
check. -/
def checkMinThen (min_priority : Option Int) (keyword : Option String)
    (case_sensitive : Bool) (r : LogRecord) : Except String Bool :=
  match min_priority with
  | some m =>
    (is_at_least_severity r.severity_num (.int m)).map fun b =>
      if b then passKeyword keyword case_sensitive r else false
  | none => .ok (passKeyword keyword case_sensitive r)

/-- One record's pass through all the `filter_logs` criteria (AND logic,
each failing check skips the record). -/
def recordPasses (exact_priority min_priority : Option Int)
    (keyword : Option String) (case_sensitive : Bool) (r : LogRecord) :
    Except String Bool :=
  match exact_priority with
  | some p =>
    if r.severity_num = p then checkMinThen min_priority keyword case_sensitive r
    else .ok false
  | none => checkMinThen min_priority keyword case_sensitive r

/-- The record loop of `filter_logs`, yielding survivors in order (an error
raised while testing a record propagates). -/
def filterLoop (exact_priority min_priority : Option Int)
    (keyword : Option String) (case_sensitive : Bool) :
    List LogRecord → Except String (List LogRecord)
  | [] => .ok []
  | r :: rest =>
    match recordPasses exact_priority min_priority keyword case_sensitive r with
    | .error e => .error e
    | .ok keep =>
      match filterLoop exact_priority min_priority keyword case_sensitive rest with
      | .error e => .error e
      | .ok tail => .ok (if keep then r :: tail else tail)

/-- Resolve an optional severity argument through `label_to_priority`. -/
def resolveSevOpt : Option SevInput → Except String (Option Int)
  | none => .ok none
  | some s => (label_to_priority s).map some

/-- `filter_logs`: specifying both `severity` and `min_severity` raises
`ValueError` before touching the records; otherwise the thresholds are
resolved once and each record is tested in order.  (The Python message
quotes the two option names; the quoting is not reproduced.) -/
def filter_logs (records : List LogRecord) (severity min_severity : Option SevInput)
    (keyword : Option String) (case_sensitive : Bool) :
    Except String (List LogRecord) :=
  if severity.isSome ∧ min_severity.isSome then
    .error "Cannot specify both severity and min_severity"
  else
    match resolveSevOpt severity with
    | .error e => .error e
    | .ok exact_priority =>
      match resolveSevOpt min_severity with
      | .error e => .error e
      | .ok min_priority =>
        filterLoop exact_priority min_priority keyword case_sensitive records

/-! ## Engine facade (`loglens/engine.py`) -/

/-- The observable outcome of one `fetch_logs` run over a finite source:
the records yielded, how many raw events were pulled from the source, the
normalization error that aborted the run (if any), and the final
normalization statistics. -/
structure FetchOut where
  records : List LogRecord
  consumed : Nat
  err : Option String
  stats : NormStats
deriving Repr, BEq

/-- The `count >= limit` test of the `fetch_logs` loop (`limit is None`
never stops). -/
def capReached : Option Nat → Nat → Bool
  | none, _ => false
  | some l, count => l ≤ count

/-- The `fetch_logs` loop: pull a raw event, normalize (a normalization
failure propagates after the event was already consumed), yield, increment
the count, and break once `count >= limit`. -/
def fetchAux (o : TimeOracle) (limit : Option Nat) :
    Nat → List RawEvent → NormStats → FetchOut
  | _, [], stats => ⟨[], 0, none, stats⟩
  | count, e :: rest, stats =>
    match normalize_event o e stats with
    | (.error msg, stats1) => ⟨[], 1, some msg, stats1⟩
    | (.ok r, stats1) =>
      if capReached limit (count + 1) then ⟨[r], 1, none, stats1⟩
      else
        let out := fetchAux o limit (count + 1) rest stats1
        ⟨r :: out.records, out.consumed + 1, out.err, out.stats⟩

/-- `fetch_logs` over a source whose `read()` yields the given finite list
of raw events. -/
def fetch_logs (o : TimeOracle) (limit : Option Nat) (events : List RawEvent)
    (stats : NormStats) : FetchOut :=
  fetchAux o limit 0 events stats

/-! ## Journalctl source (`loglens/sources/journalctl.py`) -/

/-- The per-instance `stats` dict of `JournalctlSource`. -/
structure JournalStats where
  total_lines : Nat := 0
  empty_lines : Nat := 0
  json_errors : Nat := 0
  events_yielded : Nat := 0
deriving Repr, BEq

/-- The source error taxonomy of `loglens/sources/base.py`. -/
inductive SourceErrKind where
  | notFound : String → SourceErrKind
  | permission : String → SourceErrKind
  | generic : String → SourceErrKind
deriving Repr, BEq

/-- One line of the `read()` loop: count it, skip blanks, parse JSON
(`parse` abstracts `json.loads`, `none` = `JSONDecodeError`), yield a
`"journalctl"`-tagged event carrying the command in its metadata, or count
a JSON error and drop the line. -/
def journalStep (parse : String → Option Json) (cmd : List String)
    (st : JournalStats × List RawEvent) (line : String) :
    JournalStats × List RawEvent :=
  let stats := { st.1 with total_lines := st.1.total_lines + 1 }
  let stripped := pyStrip line
  if stripped = "" then
    ({ stats with empty_lines := stats.empty_lines + 1 }, st.2)
  else
    match parse stripped with
    | some data =>
      ({ stats with events_yielded := stats.events_yielded + 1 },
       st.2 ++ [⟨data, "journalctl",
                 some [("command", .arr (cmd.map .str))]⟩])
    | none =>
      ({ stats with json_errors := stats.json_errors + 1 }, st.2)

/-- The full line loop of `JournalctlSource.read` over the subprocess's
stdout lines, starting from the zeroed per-instance statistics. -/
def journalProcessLines (parse : String → Option Json) (cmd : List String)
    (lines : List String) : JournalStats × List RawEvent :=
  lines.foldl (journalStep parse cmd) ({}, [])

/-- The exit-status inspection at the end of `JournalctlSource.read`:
non-zero exit whose stderr mentions permission denial is a permission
error; exit code 1 with blank stderr is "no entries found" (success); any
other non-zero exit is a generic source error. -/
def journalCheckExit (returncode : Int) (stderr : String) :
    Except SourceErrKind Unit :=
  if returncode ≠ 0 then
    if containsSub (pyLower stderr) "permission denied" ∨
        containsSub (pyLower stderr) "access denied" then
      .error (.permission ("Permission denied. " ++ stderr))
    else if returncode = 1 ∧ pyStrip stderr = "" then
      .ok ()
    else
      .error (.generic ("journalctl exited with code " ++ toString returncode
        ++ ": " ++ stderr))
  else .ok ()

/-- `JournalctlSource.read` over a completed subprocess run, abstracted by
its stdout lines, exit status and stderr text: stream the lines, then
inspect the exit status. -/
def journalRead (parse : String → Option Json) (cmd : List String)
    (lines : List String) (returncode : Int) (stderr : String) :
    Except SourceErrKind (List RawEvent × JournalStats) :=
  let (stats, events) := journalProcessLines parse cmd lines
  (journalCheckExit returncode stderr).map fun _ => (events, stats)

/-- A concrete oracle (fixed clock, all datetime conversions failing) used
to evaluate the model at concrete inputs. -/
def oracle0 : TimeOracle :=
  ⟨"1970-01-01T00:00:00", fun _ => none, fun _ => none, fun _ => none⟩

/-! ## Helper lemmas -/

theorem ptl_ok_of_range (n : Int) (h1 : 0 ≤ n) (h2 : n ≤ 7) :
    ∃ l, priority_to_label n = .ok l := by
  interval_cases n <;> exact ⟨_, rfl⟩

theorem ltp_int_of_range (m : Int) (h1 : 0 ≤ m) (h2 : m ≤ 7) :
    label_to_priority (.int m) = .ok m := by
  simp [label_to_priority, h1, h2]

set_option maxHeartbeats 1000000 in
theorem labelPriorityOfStr_range {s : String} {n : Int}
    (h : labelPriorityOfStr s = some n) : 0 ≤ n ∧ n ≤ 7 := by
  unfold labelPriorityOfStr at h
  split_ifs at h
  all_goals (try cases h)
  all_goals omega

theorem ltp_range {x : SevInput} {m : Int}
    (h : label_to_priority x = .ok m) : 0 ≤ m ∧ m ≤ 7 := by
  cases x with
  | int n =>
    simp only [label_to_priority] at h
    split at h
    · injection h with h; omega
    · cases h
  | str s =>
    simp only [label_to_priority] at h
    split at h
    · split at h
      · injection h with h; omega
      · cases h
    · split at h
      · rename_i k hk
        injection h with h
        have := labelPriorityOfStr_range hk
        omega
      · cases h

set_option maxHeartbeats 1000000 in
theorem jsonlLevelOfStr_range (s : String) :
    0 ≤ jsonlLevelOfStr s ∧ jsonlLevelOfStr s ≤ 7 := by
  unfold jsonlLevelOfStr
  split_ifs
  all_goals omega

theorem mkLogRecord_ok_iff (t : String) (n : Int) (l m : String)
    (raw : Option (List (String × Json))) (r : LogRecord) :
    mkLogRecord t n l m raw = .ok r ↔
      ((0 ≤ n ∧ n ≤ 7) ∧ r = ⟨t, n, l, m, raw⟩) := by
  unfold mkLogRecord
  split
  · rename_i h
    constructor
    · intro he; injection he with he; exact ⟨h, he.symm⟩
    · rintro ⟨_, rfl⟩; rfl
  · rename_i h
    constructor
    · intro he; cases he
    · rintro ⟨hr, _⟩; exact absurd hr h

theorem mkLogRecord_ok_of_range (t : String) (n : Int) (l m : String)
    (raw : Option (List (String × Json))) (h1 : 0 ≤ n) (h2 : n ≤ 7) :
    mkLogRecord t n l m raw = .ok ⟨t, n, l, m, raw⟩ := by
  unfold mkLogRecord
  rw [if_pos ⟨h1, h2⟩]

theorem jsonlLevelNum_range (v : Json) :
    0 ≤ jsonlLevelNum v ∧ jsonlLevelNum v ≤ 7 := by
  cases v with
  | int n => simp only [jsonlLevelNum]; split_ifs <;> omega
  | bool b => cases b <;> simp [jsonlLevelNum]
  | str s => simpa only [jsonlLevelNum] using jsonlLevelOfStr_range (pyLower s)
  | null => simp [jsonlLevelNum]
  | arr xs => simp [jsonlLevelNum]
  | obj kvs => simp [jsonlLevelNum]

theorem jsonlSeverity_spec (data : List (String × Json)) :
    0 ≤ (jsonlSeverity data).1 ∧ (jsonlSeverity data).1 ≤ 7 ∧
      priority_to_label (jsonlSeverity data).1 = .ok (jsonlSeverity data).2 := by
  unfold jsonlSeverity
  split
  · exact ⟨by norm_num, by norm_num, rfl⟩
  · rename_i v hv
    obtain ⟨h1, h2⟩ := jsonlLevelNum_range v
    obtain ⟨l, hl⟩ := ptl_ok_of_range _ h1 h2
    rw [hl]
    exact ⟨h1, h2, hl⟩

theorem extractJournaldTimestamp_stats (o : TimeOracle)
    (data : List (String × Json)) (stats : NormStats) :
    (extractJournaldTimestamp o data stats).2 = stats ∨
      (extractJournaldTimestamp o data stats).2 =
        { stats with missing_timestamp := stats.missing_timestamp + 1 } := by
  simp only [extractJournaldTimestamp]
  split
  · split
    · split
      · left; rfl
      · right; rfl
    · right; rfl
  · right; rfl

theorem normalizeJournalctl_label {o : TimeOracle} {ev : RawEvent}
    {stats stats2 : NormStats} {r : LogRecord}
    (h : normalizeJournalctl o ev stats = (.ok r, stats2)) :
    priority_to_label r.severity_num = .ok r.severity_label := by
  unfold normalizeJournalctl at h
  split at h
  · dsimp only at h
    split at h
    · exact (Except.noConfusion (congrArg Prod.fst h))
    · rename_i lbl hl
      have h1 := congrArg Prod.fst h
      rw [mkLogRecord_ok_iff] at h1
      obtain ⟨hrange, rfl⟩ := h1
      simpa using hl
  · exact (Except.noConfusion (congrArg Prod.fst h))

theorem normalizeFileJsonl_label {o : TimeOracle} {ev : RawEvent}
    {stats stats2 : NormStats} {r : LogRecord}
    (h : normalizeFileJsonl o ev stats = (.ok r, stats2)) :
    priority_to_label r.severity_num = .ok r.severity_label := by
  unfold normalizeFileJsonl at h
  split at h
  · rename_i _ data _
    dsimp only at h
    have h1 := congrArg Prod.fst h
    rw [mkLogRecord_ok_iff] at h1
    obtain ⟨hrange, rfl⟩ := h1
    simpa using (jsonlSeverity_spec data).2.2
  · exact (Except.noConfusion (congrArg Prod.fst h))

theorem normalizeFileText_label {o : TimeOracle} {ev : RawEvent}
    {stats stats2 : NormStats} {r : LogRecord}
    (h : normalizeFileText o ev stats = (.ok r, stats2)) :
    priority_to_label r.severity_num = .ok r.severity_label := by
  unfold normalizeFileText at h
  split at h
  · have h1 := congrArg Prod.fst h
    rw [mkLogRecord_ok_iff] at h1
    obtain ⟨hrange, rfl⟩ := h1
    rfl
  · exact (Except.noConfusion (congrArg Prod.fst h))

theorem normalize_event_label {o : TimeOracle} {ev : RawEvent}
    {stats stats2 : NormStats} {r : LogRecord}
    (h : normalize_event o ev stats = (.ok r, stats2)) :
    priority_to_label r.severity_num = .ok r.severity_label := by
  unfold normalize_event at h
  split_ifs at h
  · exact normalizeJournalctl_label h
  · exact normalizeFileJsonl_label h
  · exact normalizeFileText_label h
  · exact (Except.noConfusion (congrArg Prod.fst h))

theorem journalStep_inv (parse : String → Option Json) (cmd : List String)
    (st : JournalStats × List RawEvent) (line : String)
    (h : st.1.total_lines =
      st.1.empty_lines + st.1.json_errors + st.1.events_yielded) :
    (journalStep parse cmd st line).1.total_lines =
      (journalStep parse cmd st line).1.empty_lines +
      (journalStep parse cmd st line).1.json_errors +
      (journalStep parse cmd st line).1.events_yielded := by
  simp only [journalStep]
  split
  · simp; omega
  · split <;> simp <;> omega

/-! ## Claim theorems -/

/-- C5: for every input sequence (and keyword options), calling
`filter_logs` with both `severity` and `min_severity` specified fails with
the configuration `ValueError`, independently of the records — so before
any record is consumed or yielded. -/
theorem c5_both_filters_error (records : List LogRecord) (s m : SevInput)
    (keyword : Option String) (case_sensitive : Bool) :
    filter_logs records (some s) (some m) keyword case_sensitive =
      .error "Cannot specify both severity and min_severity" := by
  simp [filter_logs]

/-- C8: normalizing a `file_text` event whose data is the string `line`
always succeeds, with the line verbatim as message, severity 6/INFO, the
current wall-clock time as timestamp, and `raw = {"line": line}` (only the
total counter moves). -/
theorem c8_file_text_total (o : TimeOracle) (line : String) (stats : NormStats) :
    normalize_event o ⟨.str line, "file_text", none⟩ stats =
      (.ok ⟨o.now, 6, "INFO", line, some [("line", .str line)]⟩,
       { stats with total := stats.total + 1 }) := by
  simp [normalize_event, normalizeFileText, mkLogRecord]

/-- C9: for all `n` in 0..7,
`priority_to_label (label_to_priority (priority_to_label n))` equals
`priority_to_label n` (severity-table round-trip stability). -/
theorem c9_severity_roundtrip (n : Int) (h1 : 0 ≤ n) (h2 : n ≤ 7) :
    ((priority_to_label n).bind fun l => label_to_priority (.str l)).bind
        priority_to_label = priority_to_label n := by
  interval_cases n <;> rfl

/-- Witness for C9 at `n = 3`. -/
theorem c9_severity_roundtrip_witness :
    (0 : Int) ≤ 3 ∧ (3 : Int) ≤ 7 ∧
      ((priority_to_label 3).bind fun l => label_to_priority (.str l)).bind
          priority_to_label = priority_to_label 3 :=
  ⟨by norm_num, by norm_num, c9_severity_roundtrip 3 (by norm_num) (by norm_num)⟩

/-- C10: for every parser behavior and input line sequence (hence at every
yield point and after exhaustion, instantiating `lines` with any prefix),
the `JournalctlSource.read` statistics satisfy
`total_lines = empty_lines + json_errors + events_yielded`: every counted
line is classified as exactly one of blank, JSON parse error, or yielded
event. -/
theorem c10_journal_stats_invariant (parse : String → Option Json)
    (cmd : List String) (lines : List String) :
    (journalProcessLines parse cmd lines).1.total_lines =
      (journalProcessLines parse cmd lines).1.empty_lines +
      (journalProcessLines parse cmd lines).1.json_errors +
      (journalProcessLines parse cmd lines).1.events_yielded := by
  have key : ∀ (ls : List String) (st : JournalStats × List RawEvent),
      st.1.total_lines = st.1.empty_lines + st.1.json_errors + st.1.events_yielded →
      (ls.foldl (journalStep parse cmd) st).1.total_lines =
        (ls.foldl (journalStep parse cmd) st).1.empty_lines +
        (ls.foldl (journalStep parse cmd) st).1.json_errors +
        (ls.foldl (journalStep parse cmd) st).1.events_yielded := by
    intro ls
    induction ls with
    | nil => intro st h; simpa using h
    | cons l rest ih =>
      intro st h
      simpa [List.foldl] using ih _ (journalStep_inv parse cmd st l h)
  exact key lines ({}, []) rfl

/-- C7: every `LogRecord` accepted by the validating constructor satisfies
`0 ≤ severity_num ≤ 7` (out-of-range construction is a `ValueError`), and
every record produced by `normalize_event` additionally has
`severity_label` equal to the severity-table label of its
`severity_num`. -/
theorem c7_severity_invariant :
    (∀ (t : String) (n : Int) (l m : String)
        (raw : Option (List (String × Json))) (r : LogRecord),
      mkLogRecord t n l m raw = .ok r →
        0 ≤ r.severity_num ∧ r.severity_num ≤ 7) ∧
    (∀ (o : TimeOracle) (ev : RawEvent) (stats stats2 : NormStats)
        (r : LogRecord),
      normalize_event o ev stats = (.ok r, stats2) →
        priority_to_label r.severity_num = .ok r.severity_label) := by
  constructor
  · intro t n l m raw r h
    rw [mkLogRecord_ok_iff] at h
    obtain ⟨hr, rfl⟩ := h
    exact hr
  · intro o ev stats stats2 r h
    exact normalize_event_label h

/-- Witness for C7: both parts applied at concrete inputs. -/
theorem c7_severity_invariant_witness :
    (0 ≤ (LogRecord.mk "t" 3 "ERROR" "m" none).severity_num ∧
      (LogRecord.mk "t" 3 "ERROR" "m" none).severity_num ≤ 7) ∧
    priority_to_label
        (LogRecord.mk oracle0.now 6 "INFO" "hi"
          (some [("line", .str "hi")])).severity_num =
      .ok (LogRecord.mk oracle0.now 6 "INFO" "hi"
          (some [("line", .str "hi")])).severity_label :=
  ⟨c7_severity_invariant.1 "t" 3 "ERROR" "m" none _ rfl,
   c7_severity_invariant.2 oracle0 ⟨.str "hi", "file_text", none⟩ {} _ _ rfl⟩

/-- C6: normalizing a journalctl event whose data has no `PRIORITY` key
succeeds with `severity_num = 6` (INFO), increments the missing-priority
counter by exactly 1, and leaves the invalid-priority counter unchanged. -/
theorem c6_missing_priority (o : TimeOracle) (kvs : List (String × Json))
    (stats : NormStats) (h : kvs.lookup "PRIORITY" = none) :
    ∃ (r : LogRecord) (stats2 : NormStats),
      normalize_event o ⟨.obj kvs, "journalctl", none⟩ stats = (.ok r, stats2) ∧
        r.severity_num = 6 ∧
        stats2.missing_priority = stats.missing_priority + 1 ∧
        stats2.invalid_priority = stats.invalid_priority := by
  have hpg : pyGet kvs "PRIORITY" = none := by simp [pyGet, h]
  have hjp : ∀ s : NormStats, journalPriority kvs s =
      (6, { s with missing_priority := s.missing_priority + 1 }) := by
    intro s; simp [journalPriority, hpg]
  have hpres : ∀ s : NormStats,
      (extractJournaldTimestamp o kvs s).2.missing_priority = s.missing_priority ∧
        (extractJournaldTimestamp o kvs s).2.invalid_priority = s.invalid_priority := by
    intro s
    rcases extractJournaldTimestamp_stats o kvs s with he | he <;> simp [he]
  rw [show normalize_event o ⟨.obj kvs, "journalctl", none⟩ stats =
      normalizeJournalctl o ⟨.obj kvs, "journalctl", none⟩
        { stats with total := stats.total + 1 } from rfl]
  unfold normalizeJournalctl
  dsimp only
  rw [hjp]
  dsimp only
  refine ⟨_, _, rfl, rfl, ?_, ?_⟩
  · rw [(hpres _).1]; dsimp only; split <;> rfl
  · rw [(hpres _).2]; dsimp only; split <;> rfl

/-- Witness for C6 at a concrete event without `PRIORITY`. -/
theorem c6_missing_priority_witness :
    ∃ (r : LogRecord) (stats2 : NormStats),
      normalize_event oracle0 ⟨.obj [("MESSAGE", .str "boot")], "journalctl", none⟩
          {} = (.ok r, stats2) ∧
        r.severity_num = 6 ∧
        stats2.missing_priority = NormStats.missing_priority {} + 1 ∧
        stats2.invalid_priority = NormStats.invalid_priority {} :=
  c6_missing_priority oracle0 [("MESSAGE", .str "boot")] {} rfl

/-- C1 counterexample: a JSON-Lines event whose `level` is the in-range
integer 0 (EMERG) normalizes to `severity_num = 6`, not 0 — the truthiness
`or` in `data.get("level") or data.get("severity")` discards a 0 level, so
the claimed property fails at `n = 0`. -/
theorem c1_level_zero_counterexample :
    (normalize_event oracle0 ⟨.obj [("level", .int 0)], "file_jsonl", none⟩
        {}).1.map (fun r => r.severity_num) = .ok 6 ∧ (6 : Int) ≠ 0 :=
  ⟨rfl, by decide⟩

/-- C1 (amended): for a file JSON-Lines event whose data binds `level` to an
integer `n` with 1 ≤ n ≤ 7, `normalize_event` returns a record with
`severity_num = n` (for `n = 0` the falsy level is skipped and the severity
defaults). -/
theorem c1_jsonl_level_amended (o : TimeOracle) (kvs : List (String × Json))
    (stats : NormStats) (n : Int) (hlv : pyGet kvs "level" = some (.int n))
    (h1 : 1 ≤ n) (h7 : n ≤ 7) :
    ∃ (r : LogRecord) (stats2 : NormStats),
      normalize_event o ⟨.obj kvs, "file_jsonl", none⟩ stats = (.ok r, stats2) ∧
        r.severity_num = n := by
  have hne : truthy (.int n) = true := by
    simp [truthy]
    omega
  have hnum : jsonlLevelNum (.int n) = n := by
    simp only [jsonlLevelNum]
    rw [if_pos (show 0 ≤ n ∧ n ≤ 7 from ⟨by omega, h7⟩)]
  obtain ⟨l, hl⟩ := ptl_ok_of_range n (by omega) h7
  have hsev : jsonlSeverity kvs = (n, l) := by
    unfold jsonlSeverity
    rw [hlv]
    simp only [pyOr, hne, if_true]
    rw [hnum, hl]
  rw [show normalize_event o ⟨.obj kvs, "file_jsonl", none⟩ stats =
      normalizeFileJsonl o ⟨.obj kvs, "file_jsonl", none⟩
        { stats with total := stats.total + 1 } from rfl]
  unfold normalizeFileJsonl
  dsimp only
  rw [hsev]
  dsimp only
  rw [mkLogRecord_ok_of_range _ _ _ _ _ (by omega) h7]
  exact ⟨_, _, rfl, rfl⟩

/-- Witness for C1 (amended) at `level = 3`. -/
theorem c1_jsonl_level_amended_witness :
    ∃ (r : LogRecord) (stats2 : NormStats),
      normalize_event oracle0 ⟨.obj [("level", .int 3)], "file_jsonl", none⟩
          {} = (.ok r, stats2) ∧ r.severity_num = 3 :=
  c1_jsonl_level_amended oracle0 [("level", .int 3)] {} 3 rfl
    (by norm_num) (by norm_num)

theorem filterLoop_min (m : Int) (hm1 : 0 ≤ m) (hm2 : m ≤ 7) :
    ∀ records : List LogRecord,
      filterLoop none (some m) none false records =
        .ok (records.filter fun r => decide (r.severity_num ≤ m)) := by
  intro records
  induction records with
  | nil => rfl
  | cons r rest ih =>
    have hrp : recordPasses none (some m) none false r =
        .ok (decide (r.severity_num ≤ m)) := by
      simp [recordPasses, checkMinThen, is_at_least_severity,
        ltp_int_of_range m hm1 hm2, passKeyword, Except.map]
    simp [filterLoop, hrp, ih, List.filter_cons]

/-- C4: filtering with a valid `min_severity` threshold `t` resolving to
`m` yields exactly the records with `severity_num ≤ m`, as `List.filter`
does — the order-preserving subsequence of survivors. -/
theorem c4_min_severity_filter (records : List LogRecord) (t : SevInput)
    (m : Int) (ht : label_to_priority t = .ok m) :
    filter_logs records none (some t) none false =
      .ok (records.filter fun r => decide (r.severity_num ≤ m)) := by
  obtain ⟨hm1, hm2⟩ := ltp_range ht
  simp [filter_logs, resolveSevOpt, ht, Except.map, filterLoop_min m hm1 hm2]

/-- Witness for C4: the spec's end-to-end scenario B — severities 2, 4, 6
filtered at `"warning"` (4) keep the first two records, in order. -/
theorem c4_min_severity_filter_witness :
    filter_logs
        [⟨"t1", 2, "CRIT", "a", none⟩, ⟨"t2", 4, "WARNING", "b", none⟩,
         ⟨"t3", 6, "INFO", "c", none⟩]
        none (some (.str "warning")) none false =
      .ok [⟨"t1", 2, "CRIT", "a", none⟩, ⟨"t2", 4, "WARNING", "b", none⟩] :=
  (c4_min_severity_filter
      [⟨"t1", 2, "CRIT", "a", none⟩, ⟨"t2", 4, "WARNING", "b", none⟩,
       ⟨"t3", 6, "INFO", "c", none⟩]
      (.str "warning") 4 rfl).trans rfl

theorem fetchAux_bound (o : TimeOracle) (l : Nat) :
    ∀ (events : List RawEvent) (count : Nat) (stats : NormStats), count < l →
      (fetchAux o (some l) count events stats).records.length ≤ l - count ∧
      (fetchAux o (some l) count events stats).consumed ≤ l - count ∧
      ((fetchAux o (some l) count events stats).err = none →
        (fetchAux o (some l) count events stats).consumed =
          min (l - count) events.length) := by
  intro events
  induction events with
  | nil =>
    intro count stats hc
    simp [fetchAux]
  | cons e rest ih =>
    intro count stats hc
    simp only [fetchAux]
    split
    · simp
      omega
    · rename_i r stats1 heq
      split
      · rename_i hcap
        simp [capReached] at hcap
        simp
        omega
      · rename_i hcap
        simp [capReached] at hcap
        obtain ⟨ih1, ih2, ih3⟩ := ih (count + 1) stats1 (by omega)
        refine ⟨by simp; omega, by simp; omega, ?_⟩
        intro he
        simp at he ⊢
        have := ih3 he
        omega

/-- C2 counterexample: with `limit = 0` the cap check runs only after a
record has been yielded, so one record is produced although the claim (for
every non-negative limit) allows none. -/
theorem c2_limit_zero_counterexample :
    ¬ ((fetch_logs oracle0 (some 0)
        [⟨.str "boot", "file_text", none⟩] {}).records.length ≤ 0) := by
  decide

/-- C2 (amended): for every positive limit `l`, `fetch_logs` yields at most
`l` records, pulls at most `l` raw events from the source, and — when no
normalization error interrupts it — consumes exactly `min l
events.length` events: it stops consuming the moment the cap is reached
instead of draining the source. -/
theorem c2_fetch_limit_amended (o : TimeOracle) (events : List RawEvent)
    (stats : NormStats) (l : Nat) (hl : 1 ≤ l) :
    (fetch_logs o (some l) events stats).records.length ≤ l ∧
    (fetch_logs o (some l) events stats).consumed ≤ l ∧
    ((fetch_logs o (some l) events stats).err = none →
      (fetch_logs o (some l) events stats).consumed = min l events.length) := by
  have h := fetchAux_bound o l events 0 stats (by omega)
  simpa [fetch_logs] using h

/-- Witness for C2 (amended): two file-text events fetched with limit 1. -/
theorem c2_fetch_limit_amended_witness :
    (fetch_logs oracle0 (some 1)
        [⟨.str "a", "file_text", none⟩, ⟨.str "b", "file_text", none⟩]
        {}).records.length ≤ 1 ∧
    (fetch_logs oracle0 (some 1)
        [⟨.str "a", "file_text", none⟩, ⟨.str "b", "file_text", none⟩]
        {}).consumed ≤ 1 ∧
    ((fetch_logs oracle0 (some 1)
        [⟨.str "a", "file_text", none⟩, ⟨.str "b", "file_text", none⟩]
        {}).err = none →
      (fetch_logs oracle0 (some 1)
          [⟨.str "a", "file_text", none⟩, ⟨.str "b", "file_text", none⟩]
          {}).consumed =
        min 1 ([⟨.str "a", "file_text", none⟩,
                ⟨.str "b", "file_text", none⟩] : List RawEvent).length) :=
  c2_fetch_limit_amended oracle0
    [⟨.str "a", "file_text", none⟩, ⟨.str "b", "file_text", none⟩] {} 1
    (by norm_num)

/-- C3 counterexample: exit status 2 with empty diagnostic output is *not*
treated as "no matching entries" — `read` raises a generic source error, so
the claim fails for non-zero statuses other than 1. -/
theorem c3_nonzero_exit_counterexample :
    journalRead (fun _ => none) [] [] 2 "" =
      .error (.generic "journalctl exited with code 2: ") := rfl

/-- C3 (amended): with empty diagnostic output, only exit status 1 is
treated as "no matching entries" (`read` completes successfully); every
other non-zero exit status raises a generic source error. -/
theorem c3_exit_status_amended (parse : String → Option Json)
    (cmd : List String) (lines : List String) (rc : Int) :
    (∃ out, journalRead parse cmd lines 1 "" = .ok out) ∧
    (rc ≠ 0 → rc ≠ 1 →
      ∃ msg, journalRead parse cmd lines rc "" = .error (.generic msg)) := by
  constructor
  · unfold journalRead
    rcases hpe : journalProcessLines parse cmd lines with ⟨stats, events⟩
    exact ⟨_, rfl⟩
  · intro h0 h1
    unfold journalRead
    rcases hpe : journalProcessLines parse cmd lines with ⟨stats, events⟩
    dsimp only
    unfold journalCheckExit
    rw [if_pos h0]
    rw [if_neg (show ¬(containsSub (pyLower "") "permission denied" = true ∨
        containsSub (pyLower "") "access denied" = true) from by decide)]
    rw [if_neg (show ¬(rc = 1 ∧ pyStrip "" = "") from fun hh => h1 hh.1)]
    exact ⟨_, rfl⟩

/-- Witness for C3 (amended): exit 1 succeeds, exit 2 errors. -/
theorem c3_exit_status_amended_witness :
    (∃ out, journalRead (fun _ => none) [] [] 1 "" = .ok out) ∧
    (∃ msg, journalRead (fun _ => none) [] [] 2 "" =
      .error (.generic msg)) :=
  ⟨(c3_exit_status_amended (fun _ => none) [] [] 1).1,
   (c3_exit_status_amended (fun _ => none) [] [] 2).2 (by decide) (by decide)⟩

end LogLens
